import Mathlib

/-!
Verification of the natural-language specification of the
Parasound-Dev/imageGenerator repository (src/textImage.py) against a
shallow embedding of its code.

Modelling conventions:
  - Python ints are `Nat` (all quantities here are non-negative pixel sizes).
  - Python float arithmetic on the literal constants 0.028, 0.024, 0.8,
    1.0, 1.3, 1.4, 1.6, 0.2, 0.4, 0.5, 0.7, 1.8, 1.2 is modelled by exact
    rational arithmetic; `int(x)` on a non-negative float is modelled by
    floor (Nat division).  For every value reachable in this program the
    double-precision computation and the exact rational computation agree
    (the products stay far from the discontinuities of `int`).
  - The spec word "round" is modelled by Mathlib `round` (round half up);
    every concrete input used to separate it from the truncation in the code is
    tie-free, so the choice of tie-breaking is irrelevant.
  - Strings are Lean `String`s; the Python f-string template of
    `build_full_html` is reproduced chunk by chunk, with literal braces
    written as escapes.
-/

/-- Derived sizing values returned by `compute_typography`
(src/textImage.py lines 137-142): base body font size, h1 size, h3 size
and line height, all in pixels. -/
structure Typography where
  base : Nat
  h1 : Nat
  h3 : Nat
  line_height : Nat
deriving DecidableEq, Repr

/-- Embedding of `compute_typography` (src/textImage.py lines 117-142).
The source computes `aspect = height / float(width)` and branches on
`aspect >= 1.2`; for positive `width` this is exactly `6 * width <= 5 * height`.
`int(height * 0.028)` is floor of `height * 28 / 1000`, and similarly for the
other truncated products. -/
def compute_typography (width height : Nat) : Typography :=
  if 6 * width ≤ 5 * height then
    let base := max 24 (min (height * 28 / 1000) 36)
    ⟨base, base * 2, base * 14 / 10, base * 16 / 10⟩
  else
    let base := max 16 (min (height * 24 / 1000) 24)
    ⟨base, base * 2, base * 14 / 10, base * 16 / 10⟩

/-- Modelled from the spec wording of claim C3: the Typography Calculator
with every derived quantity *rounded* (`round`) instead of truncated, as the
spec sentence states: `base = clamp(round(height * 0.028), 24, 36)` (portrait),
`base = clamp(round(height * 0.024), 16, 24)` (landscape),
`heading1 = round(base * 2.0)`, `heading3 = round(base * 1.4)`,
`line_height = round(base * 1.6)`.  Used only to compare against
`compute_typography`. -/
def compute_typography_round (width height : Nat) : Typography :=
  if (12 : ℚ) / 10 ≤ (height : ℚ) / (width : ℚ) then
    let base : ℕ := (max 24 (min (round ((height : ℚ) * (28 / 1000))) 36)).toNat
    ⟨base, (round ((base : ℚ) * 2)).toNat, (round ((base : ℚ) * (14 / 10))).toNat,
      (round ((base : ℚ) * (16 / 10))).toNat⟩
  else
    let base : ℕ := (max 16 (min (round ((height : ℚ) * (24 / 1000))) 24)).toNat
    ⟨base, (round ((base : ℚ) * 2)).toNat, (round ((base : ℚ) * (14 / 10))).toNat,
      (round ((base : ℚ) * (16 / 10))).toNat⟩

/-- The Typography Calculator restated in the vocabulary of the spec
(aspect-ratio classification, clamp, real-valued products) but with floor
where the code truncates: this is the amended form of claim C3. -/
def compute_typography_floor (width height : Nat) : Typography :=
  if (12 : ℚ) / 10 ≤ (height : ℚ) / (width : ℚ) then
    let base : ℕ := max 24 (min (Nat.floor ((height : ℚ) * (28 / 1000))) 36)
    ⟨base, Nat.floor ((base : ℚ) * 2), Nat.floor ((base : ℚ) * (14 / 10)),
      Nat.floor ((base : ℚ) * (16 / 10))⟩
  else
    let base : ℕ := max 16 (min (Nat.floor ((height : ℚ) * (24 / 1000))) 24)
    ⟨base, Nat.floor ((base : ℚ) * 2), Nat.floor ((base : ℚ) * (14 / 10)),
      Nat.floor ((base : ℚ) * (16 / 10))⟩

/-- One entry of the platform preset table `PLATFORMS`
(src/textImage.py lines 20-41): output name and target pixel dimensions. -/
structure PlatformSpec where
  name : String
  width : Nat
  height : Nat
deriving DecidableEq, Repr

/-- Embedding of the `PLATFORMS` dict (src/textImage.py lines 20-41) as a
lookup from the key string; keys outside the table give `none`. -/
def PLATFORMS (key : String) : Option PlatformSpec :=
  if key = "1" then some ⟨"instagram", 1080, 1350⟩
  else if key = "2" then some ⟨"facebook", 1200, 630⟩
  else if key = "3" then some ⟨"linkedin", 1200, 627⟩
  else if key = "4" then some ⟨"threads", 1080, 1350⟩
  else none

/-- The insertion order of the `PLATFORMS` dict: `list(PLATFORMS.keys())`. -/
def PLATFORM_KEYS : List String := ["1", "2", "3", "4"]

/-- Embedding of `choose_platforms` (src/textImage.py lines 96-114) as a
function of the stripped input line: choice "5" selects all keys, a key of
the table selects just that key, and any other input falls through to the
`else` branch, which prints a message and returns all keys. -/
def choose_platforms (choice : String) : List String :=
  if choice = "5" then PLATFORM_KEYS
  else if (PLATFORMS choice).isSome then [choice]
  else PLATFORM_KEYS

/-- Output path for one platform, `os.path.join(out_dir, f"{name}.png")` with
the default `out_dir = "output_images"` (src/textImage.py lines 267-269 and
294). -/
def out_path (name : String) : String :=
  "output_images" ++ "/" ++ name ++ ".png"

/-- One iteration of the dispatch loop, `generate_image_for_platform`
(src/textImage.py lines 272-298), with the external rasterizer abstracted by
a failure oracle `failing`: a successful render writes exactly one file and
returns its path; a rasterizer failure (or a key missing from `PLATFORMS`,
which raises `KeyError`) raises, writing nothing. -/
def render_for_platform (failing : String → Bool) (key : String) : Option String :=
  match PLATFORMS key with
  | none => none
  | some plat => if failing key then none else some (out_path plat.name)

/-- Embedding of the loop in `main` (src/textImage.py lines 310-311).  The
loop body has no exception handling, so the first raising iteration
propagates out of the loop: the result is the list of files written before
the failure, paired with `true` iff every iteration completed. -/
def runBatch (failing : String → Bool) : List String → List String × Bool
  | [] => ([], true)
  | key :: rest =>
    match render_for_platform failing key with
    | none => ([], false)
    | some file =>
      let r := runBatch failing rest
      (file :: r.1, r.2)

/-- Embedding of `BASE_CSS` (src/textImage.py lines 43-45). -/
def BASE_CSS : String :=
  "\n/\x2a Non-critical extras can go here; key styling is injected dynamically. \x2a/\n"

/-- Content wrapper width of `build_full_html` (src/textImage.py line 160):
`min(int(width * 0.8), 960)`. -/
def content_max_width (width : Nat) : Nat := min (width * 8 / 10) 960

/-- Modelled from the spec wording of claim C5: the content container width
with *round* instead of the truncation in the code: `min(round(width * 0.8), 960)`.
Used only to compare against `content_max_width`. -/
def content_max_width_round (width : Nat) : Nat :=
  min (round ((width : ℚ) * (8 / 10))).toNat 960

/-- The `extra` local of `build_full_html` (src/textImage.py line 157):
`f"\n/* User overrides */\n{extra_css}" if extra_css else ""`. -/
def overrideExtra (extra_css : String) : String :=
  if extra_css = "" then "" else "\n/\x2a User overrides \x2a/\n" ++ extra_css

/-- The document text of `build_full_html` (src/textImage.py lines 162-231)
from `<!DOCTYPE html>` up to (and including) the four-space indent just
before the interpolated `{extra}` override block: the head, the Google Fonts
link, and the whole brand stylesheet (layout reset, heading rules, body text
rules, accent rules, bullet rules) parameterized by the derived typography.
Literal braces are written as \x7b and \x7d. -/
def styleHead (width height : Nat) : String :=
  let t := compute_typography width height
  "<!DOCTYPE html>\n<html lang=\"en\">\n<head>\n    <meta charset=\"utf-8\">\n\n    <!\x2d\x2d Google Fonts for Archivo / Barlow \x2d\x2d>\n    <link rel=\"stylesheet\"\n          href=\"https://fonts.googleapis.com/css2?family=Archivo:wght@500;600;700&family=Archivo+Narrow:wght@500;600;700&family=Barlow:wght@400;500;600;700&display=swap\">\n\n    <style>\n    "
    ++ BASE_CSS
    ++ "\n\n    html, body \x7b\n        margin: 0;\n        padding: 0;\n        width: 100%;\n        height: 100%;\n    \x7d\n\n    /\x2a Headings: Archivo Narrow, gold \x2a/\n    h1, h2, h3, h4, h5, h6 \x7b\n        color: #E7B95F;\n        font-family: \"Archivo Narrow\", system-ui, -apple-system, BlinkMacSystemFont, \"Segoe UI\", sans-serif;\n        letter-spacing: 0.07em;      /\x2a slightly tighter to avoid clipping \x2a/\n        text-transform: uppercase;\n        margin-bottom: 0.4em;\n        word-wrap: break-word;\n        overflow-wrap: break-word;\n    \x7d\n\n    h1 \x7b\n        font-size: "
    ++ toString t.h1
    ++ "px;\n        line-height: 1.15;\n        margin-bottom: "
    ++ toString (t.base * 10 / 10)
    ++ "px;\n    \x7d\n\n    h3 \x7b\n        font-size: "
    ++ toString t.h3
    ++ "px;\n        margin-top: "
    ++ toString (t.base * 13 / 10)
    ++ "px;\n        margin-bottom: "
    ++ toString (t.base * 7 / 10)
    ++ "px;\n    \x7d\n\n    /\x2a Body text: Barlow, light color \x2a/\n    p, li, span, div \x7b\n        color: #F5F5F5;\n        font-family: \"Barlow\", system-ui, -apple-system, BlinkMacSystemFont, \"Segoe UI\", sans-serif;\n        font-size: "
    ++ toString t.base
    ++ "px;\n        line-height: "
    ++ toString t.line_height
    ++ "px;\n    \x7d\n\n    /\x2a Accent (strong/em) uses Archivo + gold \x2a/\n    strong, b, em, i, a, .accent \x7b\n        color: #E7B95F;\n        font-family: \"Archivo\", system-ui, -apple-system, BlinkMacSystemFont, \"Segoe UI\", sans-serif;\n    \x7d\n\n    /\x2a Center bullets nicely \x2a/\n    ul \x7b\n        list-style-position: inside;\n        padding-left: 0;\n        margin: "
    ++ toString (t.base * 4 / 10)
    ++ "px auto 0 auto;\n        text-align: left;\n        display: inline-block;\n    \x7d\n\n    ul li \x7b\n        margin: "
    ++ toString (t.base * 2 / 10)
    ++ "px 0;\n    \x7d\n\n    "

/-- The document text of `build_full_html` (src/textImage.py lines 231-254)
from just after the `{extra}` override block through the opening of the body
and the two container divs, ending right before the interpolated
`max-width:` value. -/
def bodyHead (width height : Nat) : String :=
  let t := compute_typography width height
  "\n    </style>\n</head>\n\n<body style=\"\n    margin:0;\n    background-color:#1C1C1C;\n    color:#F5F5F5;\n    font-family:\x27Barlow\x27, system-ui, -apple-system, BlinkMacSystemFont, \x27Segoe UI\x27, sans-serif;\n    font-size:"
    ++ toString t.base
    ++ "px;\n\">\n    <div style=\"\n        width:100%;\n        height:"
    ++ toString height
    ++ "px;\n        padding-top:"
    ++ toString (t.base * 5 / 10)
    ++ "px;\n        padding-bottom:"
    ++ toString (t.base * 18 / 10)
    ++ "px;\n        box-sizing:border-box;\n        display:flex;\n        align-items:center;\n        justify-content:center;\n        text-align:center;\n    \">\n        <div style=\"\n            "

/-- The document text of `build_full_html` (src/textImage.py lines 254-258)
between the `max-width` declaration and the interpolated user content. -/
def bodyMid : String :=
  "\n            width:86%;\n            margin:0 auto;\n        \">\n            "

/-- The closing document text of `build_full_html`
(src/textImage.py lines 258-263). -/
def bodyTail : String :=
  "\n        </div>\n    </div>\n</body>\n</html>\n"

/-- Embedding of `build_full_html` (src/textImage.py lines 145-264): the
complete composed document, assembled exactly as the Python f-string
interpolates it (brand stylesheet with derived typography, then the optional
override block, then the body with the fixed-height flex container, the
`max-width` capped content wrapper, and the user content verbatim). -/
def build_full_html (user_html extra_css : String) (width height : Nat) : String :=
  styleHead width height ++ overrideExtra extra_css ++ bodyHead width height
    ++ ("max-width:" ++ toString (content_max_width width) ++ "px;") ++ bodyMid
    ++ user_html ++ bodyTail

theorem floor_mul_div_eq (a c b : Nat) :
    Nat.floor ((a : ℚ) * ((c : ℚ) / (b : ℚ))) = a * c / b := by
  have h1 : (a : ℚ) * ((c : ℚ) / (b : ℚ)) = ((a * c : ℕ) : ℚ) / (b : ℚ) := by
    push_cast
    ring
  rw [h1, Nat.floor_div_eq_div]

theorem branch_iff (width height : Nat) (hw : 0 < width) :
    ((12 : ℚ) / 10 ≤ (height : ℚ) / (width : ℚ)) ↔ 6 * width ≤ 5 * height := by
  have hw' : (0 : ℚ) < (width : ℚ) := by exact_mod_cast hw
  rw [div_le_div_iff₀ (by norm_num) hw']
  constructor
  · intro h
    have h' : (12 * width : ℚ) ≤ (height * 10 : ℚ) := by exact_mod_cast h
    have h'' : (12 * width : ℕ) ≤ (height * 10 : ℕ) := by exact_mod_cast h'
    omega
  · intro h
    have h' : (12 * width : ℕ) ≤ (height * 10 : ℕ) := by omega
    exact_mod_cast h'

theorem base_eq_floor (height : Nat) :
    max 24 (min (height * 28 / 1000) 36)
      = max 24 (min (Nat.floor ((height : ℚ) * (28 / 1000))) 36) := by
  have h : ((28 : ℚ) / 1000) = ((28 : ℕ) : ℚ) / ((1000 : ℕ) : ℚ) := by norm_num
  rw [h, floor_mul_div_eq]

theorem floor_q_mul2 (a : Nat) : Nat.floor ((a : ℚ) * 2) = a * 2 := by
  have h : ((a : ℚ) * 2) = ((a * 2 : ℕ) : ℚ) := by push_cast; ring
  rw [h, Nat.floor_natCast]

theorem floor_q_28 (a : Nat) : Nat.floor ((a : ℚ) * (28 / 1000)) = a * 28 / 1000 := by
  have h : ((28 : ℚ) / 1000) = ((28 : ℕ) : ℚ) / ((1000 : ℕ) : ℚ) := by norm_num
  rw [h, floor_mul_div_eq]

theorem floor_q_24 (a : Nat) : Nat.floor ((a : ℚ) * (24 / 1000)) = a * 24 / 1000 := by
  have h : ((24 : ℚ) / 1000) = ((24 : ℕ) : ℚ) / ((1000 : ℕ) : ℚ) := by norm_num
  rw [h, floor_mul_div_eq]

theorem floor_q_14 (a : Nat) : Nat.floor ((a : ℚ) * (14 / 10)) = a * 14 / 10 := by
  have h : ((14 : ℚ) / 10) = ((14 : ℕ) : ℚ) / ((10 : ℕ) : ℚ) := by norm_num
  rw [h, floor_mul_div_eq]

theorem floor_q_16 (a : Nat) : Nat.floor ((a : ℚ) * (16 / 10)) = a * 16 / 10 := by
  have h : ((16 : ℚ) / 10) = ((16 : ℕ) : ℚ) / ((10 : ℕ) : ℚ) := by norm_num
  rw [h, floor_mul_div_eq]

theorem floor_q_8 (a : Nat) : Nat.floor ((a : ℚ) * (8 / 10)) = a * 8 / 10 := by
  have h : ((8 : ℚ) / 10) = ((8 : ℕ) : ℚ) / ((10 : ℕ) : ℚ) := by norm_num
  rw [h, floor_mul_div_eq]

theorem str_append_assoc (a b c : String) : a ++ b ++ c = a ++ (b ++ c) := by
  cases a
  cases b
  cases c
  simp only [HAppend.hAppend, Append.append, String.append]
  exact congrArg String.mk (List.append_assoc _ _ _)

theorem str_empty_append (s : String) : "" ++ s = s := by
  cases s
  simp only [HAppend.hAppend, Append.append, String.append]
  rfl

/-- C3 counterexample: on the portrait canvas width=700, height=860 (aspect
about 1.23) the code derives base = 24 and heading3 = int(24 * 1.4) = 33
(truncation), while the formula of the claim heading3 = round(base * 1.4) =
round(33.6) gives 34.  So the claim, which says the calculator returns the
*rounded* values, is false on this input. -/
theorem c3_typography_round_counterexample :
    (compute_typography 700 860).h3 = 33 ∧ (compute_typography_round 700 860).h3 = 34 := by
  constructor
  · decide
  · rw [compute_typography_round, if_pos (by norm_num)]
    norm_num [round_eq, show Int.toNat 24 = 24 from rfl]
    decide

/-- C3 amended: for every positive (width, height) the Typography Calculator
classifies the canvas by aspect r = height / width and returns
base = clamp(floor(height * 0.028), 24, 36) when r >= 1.2, else
base = clamp(floor(height * 0.024), 16, 24), with heading1 = floor(base * 2.0),
heading3 = floor(base * 1.4) and line_height = floor(base * 1.6): the code
truncates (Python `int`) where the claim said it rounds. -/
theorem c3_typography_floor_amended (width height : Nat) (hw : 0 < width)
    (hh : 0 < height) :
    compute_typography width height = compute_typography_floor width height := by
  rw [compute_typography, compute_typography_floor]
  rcases le_or_lt (6 * width) (5 * height) with h | h
  · rw [if_pos h, if_pos ((branch_iff width height hw).mpr h)]
    simp only [floor_q_28, floor_q_14, floor_q_16, floor_q_mul2]
  · rw [if_neg (by omega), if_neg (by rw [branch_iff width height hw]; omega)]
    simp only [floor_q_24, floor_q_14, floor_q_16, floor_q_mul2]

theorem c3_typography_floor_amended_witness :
    0 < 1080 ∧ 0 < 1350 ∧
      compute_typography 1080 1350 = compute_typography_floor 1080 1350 :=
  ⟨by decide, by decide, c3_typography_floor_amended 1080 1350 (by decide) (by decide)⟩

/-- C4: at the three concrete registry dimensions the clamp boundaries are
hit: (1080, 1350) portrait gives base 36; (1200, 630) and (1200, 627)
landscape give base 16. -/
theorem c4_clamp_boundaries :
    (compute_typography 1080 1350).base = 36 ∧
      (compute_typography 1200 630).base = 16 ∧
      (compute_typography 1200 627).base = 16 := by
  decide

/-- C7: for a fixed positive width and two heights h1 < h2 that both fall in
the portrait branch (aspect >= 1.2, i.e. 6 * width <= 5 * height), the base
size is monotone in the height, and every portrait base size lies in
[24, 36]. -/
theorem c7_portrait_base_monotone (width ha hb : Nat) (hw : 0 < width)
    (hpos : 0 < ha) (hlt : ha < hb) (hp1 : 6 * width ≤ 5 * ha)
    (hp2 : 6 * width ≤ 5 * hb) :
    (compute_typography width ha).base ≤ (compute_typography width hb).base ∧
      24 ≤ (compute_typography width ha).base ∧
      (compute_typography width ha).base ≤ 36 ∧
      24 ≤ (compute_typography width hb).base ∧
      (compute_typography width hb).base ≤ 36 := by
  rw [compute_typography, compute_typography, if_pos hp1, if_pos hp2]
  refine ⟨?_, le_max_left _ _, ?_, le_max_left _ _, ?_⟩
  · exact max_le_max (le_refl 24)
      (min_le_min (Nat.div_le_div_right (Nat.mul_le_mul_right _ (le_of_lt hlt)))
        (le_refl 36))
  · exact max_le (by norm_num) (min_le_right _ _)
  · exact max_le (by norm_num) (min_le_right _ _)

theorem c7_portrait_base_monotone_witness :
    0 < 1080 ∧ 0 < 1300 ∧ 1300 < 1350 ∧ 6 * 1080 ≤ 5 * 1300 ∧ 6 * 1080 ≤ 5 * 1350 ∧
      ((compute_typography 1080 1300).base ≤ (compute_typography 1080 1350).base ∧
        24 ≤ (compute_typography 1080 1300).base ∧
        (compute_typography 1080 1300).base ≤ 36 ∧
        24 ≤ (compute_typography 1080 1350).base ∧
        (compute_typography 1080 1350).base ≤ 36) :=
  ⟨by decide, by decide, by decide, by decide, by decide,
    c7_portrait_base_monotone 1080 1300 1350 (by decide) (by decide) (by decide)
      (by decide) (by decide)⟩

/-- C1 counterexample: requesting the out-of-registry identifier "9" is not
rejected at all: `choose_platforms` falls back to the full key list, and with
a healthy rasterizer the batch then writes all four output files.  This
contradicts the claim that the request fails with `UnknownPlatform` before
any output file is written (no such error path exists in the code). -/
theorem c1_unknown_platform_counterexample :
    choose_platforms "9" = PLATFORM_KEYS ∧
      (runBatch (fun _ => false) (choose_platforms "9")).1 =
        ["output_images/instagram.png", "output_images/facebook.png",
          "output_images/linkedin.png", "output_images/threads.png"] := by
  constructor
  · rfl
  · rfl

/-- C1 amended: a requested identifier that is not in the fixed registry is
not rejected and triggers no error; the selection falls back to the full
platform list (after printing a notice) and rendering proceeds for all four
platforms, each writing its output file when the rasterizer succeeds. -/
theorem c1_unknown_platform_amended (s : String) (hs : PLATFORMS s = none) :
    choose_platforms s = PLATFORM_KEYS ∧
      (runBatch (fun _ => false) (choose_platforms s)).1.length = 4 := by
  rw [choose_platforms]
  rcases eq_or_ne s "5" with h5 | h5
  · rw [if_pos h5]
    exact ⟨rfl, rfl⟩
  · rw [if_neg h5, if_neg (by rw [hs]; decide)]
    exact ⟨rfl, rfl⟩

theorem c1_unknown_platform_amended_witness :
    PLATFORMS "7" = none ∧
      (choose_platforms "7" = PLATFORM_KEYS ∧
        (runBatch (fun _ => false) (choose_platforms "7")).1.length = 4) :=
  ⟨by decide, c1_unknown_platform_amended "7" (by decide)⟩

/-- C2 counterexample: in the batch over all four platforms, a rasterizer
failure on platform "2" (facebook) aborts the loop: only instagram, which
precedes it, got its file; linkedin and threads, also requested and not
failing, produce nothing.  This contradicts the claim that every other
requested platform still produces its output file. -/
theorem c2_failure_isolation_counterexample :
    runBatch (fun k => k == "2") PLATFORM_KEYS = (["output_images/instagram.png"], false) ∧
      "output_images/linkedin.png" ∉ (runBatch (fun k => k == "2") PLATFORM_KEYS).1 := by
  constructor
  · rfl
  · decide

/-- C2 amended: the dispatch loop has no per-platform exception handling, so
a rasterizer failure on one platform aborts the batch at that point: exactly
the platforms strictly before the first failing (or invalid) one produce
their output files, and the batch flag is true iff every requested platform
rendered. -/
theorem c2_failure_aborts_batch (failing : String → Bool) (keys : List String) :
    (runBatch failing keys).1 =
      (keys.takeWhile fun k => (render_for_platform failing k).isSome).filterMap
        (render_for_platform failing) ∧
      (runBatch failing keys).2 =
        keys.all fun k => (render_for_platform failing k).isSome := by
  induction keys with
  | nil => exact ⟨rfl, rfl⟩
  | cons key rest ih =>
    rw [runBatch]
    cases hr : render_for_platform failing key with
    | none =>
      simp [List.takeWhile_cons, List.all_cons, hr]
    | some file =>
      simp [List.takeWhile_cons, List.all_cons, hr, List.filterMap_cons, ih.1, ih.2]

/-- C5 counterexample: for width 7 the code emits
`min(int(7 * 0.8), 960) = min(int(5.6), 960) = 5` (truncation), while the
formula of the claim `min(round(7 * 0.8), 960) = min(6, 960) = 6`.  So the claim
that the emitted container width is the *rounded* value is false. -/
theorem c5_container_width_counterexample :
    content_max_width 7 = 5 ∧ content_max_width_round 7 = 6 := by
  constructor
  · decide
  · rw [content_max_width_round]
    norm_num [round_eq]
    decide

/-- C5 amended: for every width, the content container max-width emitted
into the composed document equals `min(floor(width * 0.8), 960)` — a floor,
not a round; in particular width 1080 yields 864 and width 1200 yields 960.
The emitted occurrence is exhibited by decomposing the composed document
around the `max-width:` declaration. -/
theorem c5_container_width_amended (u c : String) (w h : Nat) :
    content_max_width w = min (Nat.floor ((w : ℚ) * (8 / 10))) 960 ∧
      (∃ pre post, build_full_html u c w h =
        pre ++ ("max-width:" ++ toString (content_max_width w) ++ "px;") ++ post) ∧
      content_max_width 1080 = 864 ∧ content_max_width 1200 = 960 := by
  refine ⟨?_, ⟨styleHead w h ++ overrideExtra c ++ bodyHead w h,
    bodyMid ++ u ++ bodyTail, ?_⟩, by decide, by decide⟩
  · rw [content_max_width, floor_q_8]
  · rw [build_full_html]
    simp only [str_append_assoc]

/-- C6: composition is deterministic: the composed document depends on
nothing but the four inputs, so equal inputs give byte-identical documents
(the embedding of `build_full_html` is a pure function of its arguments). -/
theorem c6_compose_deterministic (u1 u2 c1 c2 : String) (w1 w2 h1 h2 : Nat)
    (hu : u1 = u2) (hc : c1 = c2) (hw : w1 = w2) (hh : h1 = h2) :
    build_full_html u1 c1 w1 h1 = build_full_html u2 c2 w2 h2 := by
  rw [hu, hc, hw, hh]

theorem c6_compose_deterministic_witness :
    build_full_html "<h1>A</h1>" "p" 1200 630 = build_full_html "<h1>A</h1>" "p" 1200 630 :=
  c6_compose_deterministic "<h1>A</h1>" "<h1>A</h1>" "p" "p" 1200 1200 630 630
    rfl rfl rfl rfl

/-- C8: composing with a non-empty `extra_css` produces a document that
contains that exact string verbatim, immediately after `styleHead`, which is
the entire brand stylesheet (separated only by the `/* User overrides */`
marker the code prepends); composing with an empty `extra_css` omits the
override block entirely (the document is `styleHead` followed directly by
the rest of the template, with no marker and no override text). -/
theorem c8_override_application (u c : String) (w h : Nat) :
    (c ≠ "" → ∃ post, build_full_html u c w h =
      styleHead w h ++ ("\n/\x2a User overrides \x2a/\n" ++ c) ++ post) ∧
      build_full_html u "" w h =
        styleHead w h ++ (bodyHead w h
          ++ ("max-width:" ++ toString (content_max_width w) ++ "px;") ++ bodyMid
          ++ u ++ bodyTail) := by
  constructor
  · intro hc
    refine ⟨bodyHead w h ++ ("max-width:" ++ toString (content_max_width w) ++ "px;")
      ++ bodyMid ++ u ++ bodyTail, ?_⟩
    rw [build_full_html, overrideExtra, if_neg hc]
    simp only [str_append_assoc]
  · rw [build_full_html, overrideExtra, if_pos rfl]
    simp only [str_append_assoc, str_empty_append]

theorem c8_override_application_witness :
    ∃ post, build_full_html "<p>t</p>" "x" 1080 1350 =
      styleHead 1080 1350 ++ ("\n/\x2a User overrides \x2a/\n" ++ "x") ++ post :=
  (c8_override_application "<p>t</p>" "x" 1080 1350).1 (by decide)

/-- C9: any selection input other than "1", "2", "3", "4" or "5" does not
fail: `choose_platforms` returns the full list of platform keys, the same
result as the "all" choice "5", so the batch proceeds to render every
platform. -/
theorem c9_invalid_choice_defaults_to_all (s : String) (h1 : s ≠ "1") (h2 : s ≠ "2")
    (h3 : s ≠ "3") (h4 : s ≠ "4") (h5 : s ≠ "5") :
    choose_platforms s = PLATFORM_KEYS ∧ choose_platforms s = choose_platforms "5" ∧
      (runBatch (fun _ => false) (choose_platforms s)).1.length = 4 := by
  have hnone : PLATFORMS s = none := by
    rw [PLATFORMS, if_neg h1, if_neg h2, if_neg h3, if_neg h4]
  rw [choose_platforms, if_neg h5, if_neg (by rw [hnone]; decide)]
  exact ⟨rfl, rfl, rfl⟩

theorem c9_invalid_choice_defaults_to_all_witness :
    choose_platforms "all" = PLATFORM_KEYS ∧
      choose_platforms "all" = choose_platforms "5" ∧
      (runBatch (fun _ => false) (choose_platforms "all")).1.length = 4 :=
  c9_invalid_choice_defaults_to_all "all" (by decide) (by decide) (by decide)
    (by decide) (by decide)

/-- C10: the registry entries "1" (instagram) and "4" (threads) carry the
same dimensions 1080 x 1350, so for every content fragment and override
string the two composed documents are byte-identical, while the two output
file paths differ. -/
theorem c10_instagram_threads_identical (u c : String) :
    (PLATFORMS "1").map (fun p => build_full_html u c p.width p.height) =
      (PLATFORMS "4").map (fun p => build_full_html u c p.width p.height) ∧
      (PLATFORMS "1").map (fun p => out_path p.name) ≠
        (PLATFORMS "4").map (fun p => out_path p.name) := by
  constructor
  · rfl
  · decide
